import Mathlib

/-!
Shallow embedding of the Nalanda Library Management borrow/return/renew
core (src/models/Book.js, src/models/BorrowRecord.js, and the borrow
controller / GraphQL resolvers), together with theorems settling the
specification claims about it.

Times are modelled as integers (milliseconds since the epoch, the JS
`Date.getTime()` view); JS numbers holding copy counts are modelled as
integers.  Mongoose documents become plain structures, method calls become
functions from the old document to the new one, and the ambient clock
(`new Date()` in the source) becomes an explicit `now : Int` parameter.
-/

namespace Nalanda

/-- `status` enum of borrowRecordSchema: 'Borrowed', 'Returned', 'Overdue', 'Lost'. -/
inductive LoanStatus where
  | Borrowed
  | Returned
  | Overdue
  | Lost
deriving DecidableEq, Repr

/-- The embedded `fine` subdocument of borrowRecordSchema (amount, paid, paidDate). -/
structure Fine where
  amount : Int
  paid : Bool
  paidDate : Option Int
deriving DecidableEq, Repr

/-- A BorrowRecord document (borrowRecordSchema): user and book references,
borrow/due/return dates, status, renewalCount and fine. -/
structure BorrowRecord where
  userId : Nat
  bookId : Nat
  borrowDate : Int
  dueDate : Int
  returnDate : Option Int
  status : LoanStatus
  renewalCount : Nat
  fine : Fine
deriving DecidableEq, Repr

/-- A Book document (bookSchema), restricted to the fields the borrow flow
touches: totalCopies, availableCopies, borrowCount, isActive. -/
structure Book where
  totalCopies : Int
  availableCopies : Int
  borrowCount : Int
  isActive : Bool
deriving DecidableEq, Repr

/-- Milliseconds per day, the `1000 * 60 * 60 * 24` of the source. -/
def msPerDay : Int := 1000 * 60 * 60 * 24

namespace Book

/-- `bookSchema.methods.isAvailable`: availableCopies > 0 and isActive. -/
def isAvailable (b : Book) : Bool :=
  b.availableCopies > 0 && b.isActive

/-- `bookSchema.methods.borrowCopy`: if a copy is available, decrement
availableCopies, increment borrowCount and return true; otherwise return
false and leave the book unchanged. -/
def borrowCopy (b : Book) : Book × Bool :=
  if b.availableCopies > 0 then
    ({ b with availableCopies := b.availableCopies - 1,
              borrowCount := b.borrowCount + 1 }, true)
  else
    (b, false)

/-- `bookSchema.methods.returnCopy`: if availableCopies < totalCopies,
increment availableCopies and return true; otherwise return false. -/
def returnCopy (b : Book) : Book × Bool :=
  if b.availableCopies < b.totalCopies then
    ({ b with availableCopies := b.availableCopies + 1 }, true)
  else
    (b, false)

end Book

namespace BorrowRecord

/-- `isOverdue` virtual: false for terminal statuses Returned/Lost, otherwise
whether the clock reading `now` is past the due date. -/
def isOverdue (r : BorrowRecord) (now : Int) : Bool :=
  if r.status = .Returned ∨ r.status = .Lost then false
  else decide (now > r.dueDate)

/-- `daysOverdue` virtual: 0 for terminal statuses or when not overdue,
otherwise `Math.ceil(Math.abs(now - dueDate) / msPerDay)`.  `Math.abs` is
`Int.natAbs` and the ceiling of a nonnegative quotient is
`(n + d - 1) / d` in natural division. -/
def daysOverdue (r : BorrowRecord) (now : Int) : Int :=
  if r.status = .Returned ∨ r.status = .Lost ∨ ¬ r.isOverdue now then 0
  else (((now - r.dueDate).natAbs + (msPerDay.toNat - 1)) / msPerDay.toNat : Nat)

/-- `borrowRecordSchema.methods.calculateFine`: daysOverdue times the $1
per-day rate. -/
def calculateFine (r : BorrowRecord) (now : Int) : Int :=
  r.daysOverdue now * 1

/-- `borrowRecordSchema.methods.returnBook`: set returnDate to now and status
to Returned, then (on the already-mutated document, as in the source) set
fine.amount to calculateFine when the record is overdue. -/
def returnBook (r : BorrowRecord) (now : Int) : BorrowRecord :=
  let r1 := { r with returnDate := some now, status := .Returned }
  if r1.isOverdue now then
    { r1 with fine := { r1.fine with amount := r1.calculateFine now } }
  else
    r1

/-- `borrowRecordSchema.methods.renewBook`: throw when renewalCount ≥ 3,
otherwise push dueDate 14 days out and bump renewalCount. -/
def renewBook (r : BorrowRecord) : Except String BorrowRecord :=
  if r.renewalCount ≥ 3 then
    .error "Maximum renewal limit reached"
  else
    .ok { r with dueDate := r.dueDate + 14 * msPerDay,
                 renewalCount := r.renewalCount + 1 }

/-- The pre-save middleware: a Borrowed record that is overdue at save time
gets its persisted status flipped to Overdue. -/
def preSave (r : BorrowRecord) (now : Int) : BorrowRecord :=
  if r.status = .Borrowed ∧ r.isOverdue now then
    { r with status := .Overdue }
  else
    r

/-- A loan counted as active by the controllers: status in
{'Borrowed', 'Overdue'}. -/
def isActiveLoan (r : BorrowRecord) : Bool :=
  r.status = .Borrowed ∨ r.status = .Overdue

end BorrowRecord

/-! ## Controller layer

`borrowController.js` (and the matching GraphQL resolvers, which perform the
same checks in the same order).  The database is modelled as the list of
BorrowRecord documents plus the Book document the request is about; each
`errorResponse(...)` return becomes an error constructor. -/

/-- Failure outcomes of the borrow controller, in source order:
'Book not found' (404, also covers an inactive book), 'Book is not available
for borrowing', 'You have already borrowed this book', 'Borrowing limit
reached (maximum 5 books)', and a mongoose validation failure of the created
record ('Due date must be after borrow date'). -/
inductive BorrowError where
  | BookNotFound
  | BookNotAvailable
  | DuplicateLoan
  | BorrowLimitReached
  | ValidationFailed
deriving DecidableEq, Repr

/-- `borrowController.borrowBook` (also `resolvers Mutation.borrowBook`):
check the book exists and is active, check `book.isAvailable()`, check for an
existing {Borrowed, Overdue} record of this user for this book, check the
count of the user's {Borrowed, Overdue} records against the 5-loan limit,
compute the due date (supplied, else now + 14 days), create the record
(running schema validation `dueDate > borrowDate` and the pre-save hook) and
apply `book.borrowCopy()`. -/
def borrowBook (records : List BorrowRecord) (book : Book)
    (userId bookId : Nat) (dueDate? : Option Int) (now : Int) :
    Except BorrowError (BorrowRecord × Book) :=
  if ¬ book.isActive then .error .BookNotFound
  else if ¬ book.isAvailable then .error .BookNotAvailable
  else if (records.filter (fun r =>
      r.userId = userId ∧ r.bookId = bookId ∧ r.isActiveLoan)) ≠ [] then
    .error .DuplicateLoan
  else if (records.filter (fun r =>
      r.userId = userId ∧ r.isActiveLoan)).length ≥ 5 then
    .error .BorrowLimitReached
  else
    let borrowDueDate := dueDate?.getD (now + 14 * msPerDay)
    if ¬ borrowDueDate > now then .error .ValidationFailed
    else
      let record : BorrowRecord :=
        { userId := userId, bookId := bookId, borrowDate := now,
          dueDate := borrowDueDate, returnDate := none,
          status := .Borrowed, renewalCount := 0,
          fine := { amount := 0, paid := false, paidDate := none } }
      .ok (record.preSave now, (book.borrowCopy).1)

/-- Failure outcomes of the return controller, in source order: 'Borrow
record not found' (404), 'Access denied' (403), 'Book has already been
returned' (400). -/
inductive ReturnError where
  | RecordNotFound
  | AccessDenied
  | AlreadyReturned
deriving DecidableEq, Repr

/-- `borrowController.returnBook` (also `resolvers Mutation.returnBook`):
reject a non-owner non-admin actor, reject a record whose status is already
Returned, otherwise run `record.returnBook()`, save it (pre-save hook), and
apply `book.returnCopy()`. -/
def returnBookCtrl (record : BorrowRecord) (book : Book)
    (actorId : Nat) (actorIsAdmin : Bool) (now : Int) :
    Except ReturnError (BorrowRecord × Book) :=
  if record.userId ≠ actorId ∧ ¬ actorIsAdmin then .error .AccessDenied
  else if record.status = .Returned then .error .AlreadyReturned
  else
    let record' := (record.returnBook now).preSave now
    .ok (record', (book.returnCopy).1)

/-- The return request as a transition on the (record, book) pair: on an
error response the database state is untouched. -/
def returnStep (s : BorrowRecord × Book) (actorId : Nat)
    (actorIsAdmin : Bool) (now : Int) :
    (BorrowRecord × Book) × Option ReturnError :=
  match returnBookCtrl s.1 s.2 actorId actorIsAdmin now with
  | .ok s' => (s', none)
  | .error e => (s, some e)

/-- Failure outcomes of the renew controller, in source order: 'Borrow
record not found' (404), 'Access denied' (403, non-owner — admins may not
renew for others), 'Only borrowed or overdue books can be renewed', and the
caught `renewBook` exception 'Maximum renewal limit reached'. -/
inductive RenewError where
  | RecordNotFound
  | AccessDenied
  | NotRenewable
  | RenewalLimitReached
deriving DecidableEq, Repr

/-- `borrowController.renewBook`: reject a non-owner actor, reject a status
outside {Borrowed, Overdue}, then call `record.renewBook()` — mapping its
exception to a 400 response — and save (pre-save hook). -/
def renewBookCtrl (record : BorrowRecord) (actorId : Nat) (now : Int) :
    Except RenewError BorrowRecord :=
  if record.userId ≠ actorId then .error .AccessDenied
  else if ¬ (record.status = .Borrowed ∨ record.status = .Overdue) then
    .error .NotRenewable
  else
    match record.renewBook with
    | .error _ => .error .RenewalLimitReached
    | .ok r' => .ok (r'.preSave now)

/-- The renew request as a transition on the record: on an error response
the stored record is untouched. -/
def renewStep (record : BorrowRecord) (actorId : Nat) (now : Int) :
    BorrowRecord × Option RenewError :=
  match renewBookCtrl record actorId now with
  | .ok r' => (r', none)
  | .error e => (record, some e)

/-- The mongo filter of `getOverdueBooks` (and `resolvers Query.overdueBooks`):
`status == 'Overdue'` or (`status == 'Borrowed'` and `dueDate < now`). -/
def overdueFilter (now : Int) (r : BorrowRecord) : Bool :=
  r.status = .Overdue ∨ (r.status = .Borrowed ∧ r.dueDate < now)

/-- `borrowController.getOverdueBooks`: the records matching the overdue
filter (pagination aside; `countDocuments` counts exactly these). -/
def getOverdueBooks (records : List BorrowRecord) (now : Int) :
    List BorrowRecord :=
  records.filter (overdueFilter now)

/-- Evaluation of `calculateFine` as a state transformer on the document:
the method body reads the `daysOverdue` virtual and multiplies it by the $1
per-day rate, producing the amount and writing nothing back. -/
def calculateFineEval (r : BorrowRecord) (now : Int) : Int × BorrowRecord :=
  (r.daysOverdue now * 1, r)

/-- The two copy-count mutators of a Book, as abstract operations, so that
arbitrary interleavings of borrows and returns can be stated. -/
inductive BookOp where
  | borrow
  | giveBack
deriving DecidableEq, Repr

/-- Apply one copy-count operation to a book, discarding the Bool result. -/
def applyBookOp (b : Book) : BookOp → Book
  | .borrow => (b.borrowCopy).1
  | .giveBack => (b.returnCopy).1

/-- Apply a sequence of copy-count operations left to right. -/
def applyBookOps (b : Book) (ops : List BookOp) : Book :=
  ops.foldl applyBookOp b

/-- The copy-count invariant of bookSchema: availableCopies is nonnegative
and does not exceed totalCopies. -/
def copiesInvariant (b : Book) : Prop :=
  0 ≤ b.availableCopies ∧ b.availableCopies ≤ b.totalCopies

instance (b : Book) : Decidable (copiesInvariant b) := by
  unfold copiesInvariant
  infer_instance

/-! ## Example documents used as concrete test inputs -/

/-- A plain active loan: user 1 borrowed book 2 at time 0, due at day 100. -/
def exLoan : BorrowRecord :=
  { userId := 1, bookId := 2, borrowDate := 0, dueDate := 100 * msPerDay,
    returnDate := none, status := .Borrowed, renewalCount := 0,
    fine := { amount := 0, paid := false, paidDate := none } }

/-- An active book with one of three copies on the shelf. -/
def exBook : Book :=
  { totalCopies := 3, availableCopies := 1, borrowCount := 7, isActive := true }

/-- An active book with no copy on the shelf. -/
def exBookUnavailable : Book :=
  { totalCopies := 3, availableCopies := 0, borrowCount := 7, isActive := true }

/-- Five active loans of user 1 for books 10..14. -/
def exFiveLoans : List BorrowRecord :=
  (List.range 5).map (fun i => { exLoan with bookId := 10 + i })

/-- A loan of user 1 for book 2 marked Lost, never returned. -/
def exLostLoan : BorrowRecord :=
  { exLoan with status := .Lost }

/-- The plain loan after exhausting its three renewals. -/
def exMaxedLoan : BorrowRecord :=
  { exLoan with renewalCount := 3 }

/-- The plain loan due at day 80 and never saved since: 20 days past due at
day 100 but still marked Borrowed. -/
def exStaleLoan : BorrowRecord :=
  { exLoan with dueDate := 80 * msPerDay }

/-! ## Helper lemmas -/

theorem isOverdue_of_returned (r : BorrowRecord) (now : Int)
    (h : r.status = .Returned) : r.isOverdue now = false := by
  unfold BorrowRecord.isOverdue
  simp [h]

theorem returnBook_eq (r : BorrowRecord) (now : Int) :
    r.returnBook now = { r with returnDate := some now, status := .Returned } := by
  unfold BorrowRecord.returnBook
  simp [BorrowRecord.isOverdue]

theorem returnBook_status (r : BorrowRecord) (now : Int) :
    (r.returnBook now).status = .Returned := by
  rw [returnBook_eq]

theorem returnBook_userId (r : BorrowRecord) (now : Int) :
    (r.returnBook now).userId = r.userId := by
  rw [returnBook_eq]

theorem returnBook_returnDate (r : BorrowRecord) (now : Int) :
    (r.returnBook now).returnDate = some now := by
  rw [returnBook_eq]

theorem preSave_of_returned (r : BorrowRecord) (now : Int)
    (h : r.status = .Returned) : r.preSave now = r := by
  unfold BorrowRecord.preSave
  simp [h]

/-- `returnBook` never touches the fine: the overdue test it guards the fine
write with is evaluated after status was set to Returned, and the `isOverdue`
virtual is false for a Returned record. -/
theorem returnBook_fine_amount (r : BorrowRecord) (now : Int) :
    (r.returnBook now).fine.amount = r.fine.amount := by
  rw [returnBook_eq]

theorem applyBookOp_invariant (b : Book) (op : BookOp)
    (h : copiesInvariant b) : copiesInvariant (applyBookOp b op) := by
  obtain ⟨h0, h1⟩ := h
  cases op <;>
    simp only [applyBookOp, Book.borrowCopy, Book.returnCopy, copiesInvariant] <;>
    split <;> simp_all <;> omega

theorem returnBookCtrl_ok (r : BorrowRecord) (b : Book) (actor : Nat)
    (admin : Bool) (now : Int)
    (hst : r.status ≠ .Returned)
    (hauth : r.userId = actor ∨ admin = true) :
    returnBookCtrl r b actor admin now = .ok (r.returnBook now, (b.returnCopy).1) := by
  have hacc : ¬ (r.userId ≠ actor ∧ ¬ admin = true) := by tauto
  unfold returnBookCtrl
  rw [if_neg hacc, if_neg hst, preSave_of_returned _ _ (returnBook_status r now)]

/-! ## Claim theorems -/

/-- C1: starting from any Book with `0 <= availableCopies <= totalCopies`,
every sequence of borrowCopy / returnCopy operations preserves
`0 <= availableCopies <= totalCopies` (each prefix of the sequence is itself
a sequence, so the invariant holds after every step). -/
theorem claim1_copies_invariant_preserved (b : Book) (ops : List BookOp)
    (h : copiesInvariant b) : copiesInvariant (applyBookOps b ops) := by
  induction ops generalizing b with
  | nil => exact h
  | cons op ops ih => exact ih _ (applyBookOp_invariant b op h)

theorem claim1_witness :
    copiesInvariant exBook ∧
    copiesInvariant (applyBookOps exBook
      [BookOp.borrow, BookOp.giveBack, BookOp.giveBack, BookOp.borrow]) :=
  ⟨by decide,
   claim1_copies_invariant_preserved exBook
     [BookOp.borrow, BookOp.giveBack, BookOp.giveBack, BookOp.borrow] (by decide)⟩

/-- C2 (refuting the claimed fine): `returnBook` does set returnDate = now and
status = Returned, but it never changes fine.amount, because the overdue test
guarding the fine write runs after status was already set to Returned and the
`isOverdue` virtual is false for a Returned record.  In particular returning
`exLoan` five days past its due date leaves fine.amount at 0, where the claim
expects 5. -/
theorem claim2_return_never_sets_fine :
    (∀ (r : BorrowRecord) (now : Int),
      (r.returnBook now).returnDate = some now ∧
      (r.returnBook now).status = LoanStatus.Returned ∧
      (r.returnBook now).fine.amount = r.fine.amount) ∧
    (exLoan.returnBook (105 * msPerDay)).fine.amount = 0 ∧
    exLoan.dueDate = 105 * msPerDay - 5 * msPerDay := by
  refine ⟨fun r now => ⟨returnBook_returnDate r now, returnBook_status r now,
    returnBook_fine_amount r now⟩, ?_, by decide⟩
  rw [returnBook_fine_amount]
  rfl

/-- C3: with an authorized actor, a non-Returned loan and the loan's copy
actually out (availableCopies < totalCopies), the first return succeeds and
increments availableCopies by one, and an immediately repeated return fails
with AlreadyReturned leaving both the record and the book untouched. -/
theorem claim3_double_return (r : BorrowRecord) (b : Book) (actor : Nat)
    (admin : Bool) (now1 now2 : Int)
    (hst : r.status ≠ .Returned)
    (hauth : r.userId = actor ∨ admin = true)
    (hb : b.availableCopies < b.totalCopies) :
    (returnStep (r, b) actor admin now1).2 = none ∧
    (((returnStep (r, b) actor admin now1).1).2).availableCopies =
      b.availableCopies + 1 ∧
    returnStep ((returnStep (r, b) actor admin now1).1) actor admin now2 =
      ((returnStep (r, b) actor admin now1).1, some ReturnError.AlreadyReturned) := by
  have hstep1 : returnStep (r, b) actor admin now1 =
      ((r.returnBook now1, (b.returnCopy).1), none) := by
    unfold returnStep
    rw [returnBookCtrl_ok r b actor admin now1 hst hauth]
  have havail : ((b.returnCopy).1).availableCopies = b.availableCopies + 1 := by
    unfold Book.returnCopy
    rw [if_pos hb]
  have hacc2 : ¬ ((r.returnBook now1).userId ≠ actor ∧ ¬ admin = true) := by
    rw [returnBook_userId]
    tauto
  have h2 : returnBookCtrl (r.returnBook now1) ((b.returnCopy).1) actor admin now2 =
      .error .AlreadyReturned := by
    unfold returnBookCtrl
    rw [if_neg hacc2, if_pos (returnBook_status r now1)]
  refine ⟨by rw [hstep1], by rw [hstep1]; exact havail, ?_⟩
  rw [hstep1]
  unfold returnStep
  rw [h2]

theorem claim3_witness :
    (returnStep (exLoan, exBook) 1 false (50 * msPerDay)).2 = none ∧
    (((returnStep (exLoan, exBook) 1 false (50 * msPerDay)).1).2).availableCopies =
      exBook.availableCopies + 1 ∧
    returnStep ((returnStep (exLoan, exBook) 1 false (50 * msPerDay)).1) 1 false
        (51 * msPerDay) =
      ((returnStep (exLoan, exBook) 1 false (50 * msPerDay)).1,
        some ReturnError.AlreadyReturned) :=
  claim3_double_return exLoan exBook 1 false (50 * msPerDay) (51 * msPerDay)
    (by decide) (by decide) (by decide)

/-- C4 counterexample: user 1 holds five active loans, yet borrowing the
unavailable book fails with 'Book is not available for borrowing', not with
the borrow limit — the availability check runs before the limit check, so the
failure reason is NOT the borrow limit when the book has zero copies. -/
theorem claim4_counterexample :
    (exFiveLoans.filter (fun r => r.userId = 1 ∧ r.isActiveLoan)).length = 5 ∧
    exBookUnavailable.availableCopies = 0 ∧
    borrowBook exFiveLoans exBookUnavailable 1 2 none 0 =
      .error BorrowError.BookNotAvailable ∧
    borrowBook exFiveLoans exBookUnavailable 1 2 none 0 ≠
      .error BorrowError.BorrowLimitReached := by
  have h : borrowBook exFiveLoans exBookUnavailable 1 2 none 0 =
      .error BorrowError.BookNotAvailable := by rfl
  refine ⟨by decide, by decide, h, ?_⟩
  rw [h]
  exact fun hx => BorrowError.noConfusion (Except.error.inj hx)

/-- C4 as amended: when the target book is active and available and the user
holds no active loan for it, a user with at least five active loans is
refused with BorrowLimitReached; with zero available copies the availability
error takes precedence instead. -/
theorem claim4_borrow_limit (records : List BorrowRecord) (book : Book)
    (u bk : Nat) (dueDate? : Option Int) (now : Int)
    (hact : book.isActive = true)
    (havail : book.availableCopies > 0)
    (hdup : records.filter
      (fun r => r.userId = u ∧ r.bookId = bk ∧ r.isActiveLoan) = [])
    (hlim : (records.filter (fun r => r.userId = u ∧ r.isActiveLoan)).length ≥ 5) :
    borrowBook records book u bk dueDate? now =
      .error BorrowError.BorrowLimitReached := by
  have hav : book.isAvailable = true := by
    simp [Book.isAvailable, hact, havail]
  unfold borrowBook
  rw [if_neg (not_not_intro hact), if_neg (not_not_intro hav),
    if_neg (not_not_intro hdup), if_pos hlim]

theorem claim4_witness :
    borrowBook exFiveLoans exBook 1 2 none 0 =
      .error BorrowError.BorrowLimitReached :=
  claim4_borrow_limit exFiveLoans exBook 1 2 none 0
    (by decide) (by decide) (by decide) (by decide)

theorem preSave_renewalCount (r : BorrowRecord) (now : Int) :
    (r.preSave now).renewalCount = r.renewalCount := by
  unfold BorrowRecord.preSave
  split <;> rfl

theorem renewStep_renewalCount_le (s : BorrowRecord) (a : Nat) (t : Int)
    (hs : s.renewalCount ≤ 3) : ((renewStep s a t).1).renewalCount ≤ 3 := by
  unfold renewStep
  by_cases hu : s.userId = a
  · by_cases hst : s.status = .Borrowed ∨ s.status = .Overdue
    · by_cases h3 : 3 ≤ s.renewalCount
      · have hc : renewBookCtrl s a t = .error .RenewalLimitReached := by
          unfold renewBookCtrl BorrowRecord.renewBook
          rw [if_neg (not_not_intro hu), if_neg (not_not_intro hst), if_pos h3]
        rw [hc]
        exact hs
      · have hc : renewBookCtrl s a t = .ok
            (({ s with dueDate := s.dueDate + 14 * msPerDay,
                       renewalCount := s.renewalCount + 1 } : BorrowRecord).preSave t) := by
          unfold renewBookCtrl BorrowRecord.renewBook
          rw [if_neg (not_not_intro hu), if_neg (not_not_intro hst), if_neg h3]
        rw [hc]
        show (({ s with dueDate := s.dueDate + 14 * msPerDay,
                        renewalCount := s.renewalCount + 1 } : BorrowRecord).preSave t).renewalCount ≤ 3
        rw [preSave_renewalCount]
        show s.renewalCount + 1 ≤ 3
        omega
    · have hc : renewBookCtrl s a t = .error .NotRenewable := by
        unfold renewBookCtrl
        rw [if_neg (not_not_intro hu), if_pos hst]
      rw [hc]
      exact hs
  · have hc : renewBookCtrl s a t = .error .AccessDenied := by
      unfold renewBookCtrl
      rw [if_pos hu]
    rw [hc]
    exact hs

/-- C5: for a loan with renewalCount ≥ 3, active status and the owner acting,
renewing fails with RenewalLimitReached and leaves the stored record exactly
as it was (dueDate and renewalCount included); moreover a renew step never
pushes renewalCount past 3 on any record satisfying renewalCount ≤ 3. -/
theorem claim5_renewal_limit (r : BorrowRecord) (actor : Nat) (now : Int)
    (hcnt : r.renewalCount ≥ 3)
    (hst : r.status = .Borrowed ∨ r.status = .Overdue)
    (hown : r.userId = actor) :
    renewStep r actor now = (r, some RenewError.RenewalLimitReached) ∧
    ∀ (s : BorrowRecord) (a : Nat) (t : Int),
      s.renewalCount ≤ 3 → ((renewStep s a t).1).renewalCount ≤ 3 := by
  refine ⟨?_, fun s a t hs => renewStep_renewalCount_le s a t hs⟩
  have hrb : r.renewBook = Except.error "Maximum renewal limit reached" := by
    unfold BorrowRecord.renewBook
    rw [if_pos hcnt]
  have hc : renewBookCtrl r actor now = .error .RenewalLimitReached := by
    unfold renewBookCtrl
    rw [if_neg (not_not_intro hown), if_neg (not_not_intro hst), hrb]
  unfold renewStep
  rw [hc]

theorem claim5_witness :
    renewStep exMaxedLoan 1 (50 * msPerDay) =
      (exMaxedLoan, some RenewError.RenewalLimitReached) ∧
    ((renewStep exLoan 1 (50 * msPerDay)).1).renewalCount ≤ 3 := by
  have h := claim5_renewal_limit exMaxedLoan 1 (50 * msPerDay)
    (by decide) (by decide) (by decide)
  exact ⟨h.1, h.2 exLoan 1 (50 * msPerDay) (by decide)⟩

theorem preSave_status (r : BorrowRecord) (now : Int) :
    (r.preSave now).status =
      if r.status = .Borrowed ∧ r.isOverdue now then .Overdue else r.status := by
  unfold BorrowRecord.preSave
  split <;> rfl

theorem preSave_fields (r : BorrowRecord) (now : Int) :
    (r.preSave now).dueDate = r.dueDate ∧
    (r.preSave now).fine = r.fine ∧
    (r.preSave now).returnDate = r.returnDate ∧
    (r.preSave now).borrowDate = r.borrowDate ∧
    (r.preSave now).userId = r.userId ∧
    (r.preSave now).bookId = r.bookId := by
  unfold BorrowRecord.preSave
  split <;> exact ⟨rfl, rfl, rfl, rfl, rfl, rfl⟩

/-- C6 counterexample: renewing a 20-days-overdue loan still marked Borrowed
succeeds, but besides dueDate and renewalCount the request also changes the
status — the pre-save hook flips Borrowed to Overdue because the extended
due date is still in the past — so dueDate and renewalCount are not its only
effects on the loan. -/
theorem claim6_counterexample :
    exStaleLoan.status = LoanStatus.Borrowed ∧
    exStaleLoan.renewalCount = 0 ∧
    (renewStep exStaleLoan 1 (100 * msPerDay)).2 = none ∧
    ((renewStep exStaleLoan 1 (100 * msPerDay)).1).status = LoanStatus.Overdue := by
  refine ⟨rfl, rfl, ?_, ?_⟩ <;> decide

/-- C6 as amended: renewing an active loan (status Borrowed or Overdue) with
renewalCount < 3 as the owner succeeds; dueDate grows by exactly 14 days,
renewalCount by exactly 1, and every other field — the fine included — keeps
its value, except that a Borrowed loan whose extended due date is still in
the past is flipped to Overdue when saved; an Overdue status is never reset
to Borrowed. -/
theorem claim6_renew_success (r : BorrowRecord) (actor : Nat) (now : Int)
    (hst : r.status = .Borrowed ∨ r.status = .Overdue)
    (hcnt : r.renewalCount < 3)
    (hown : r.userId = actor) :
    (renewStep r actor now).2 = none ∧
    ((renewStep r actor now).1).dueDate = r.dueDate + 14 * msPerDay ∧
    ((renewStep r actor now).1).renewalCount = r.renewalCount + 1 ∧
    ((renewStep r actor now).1).fine = r.fine ∧
    ((renewStep r actor now).1).returnDate = r.returnDate ∧
    ((renewStep r actor now).1).borrowDate = r.borrowDate ∧
    ((renewStep r actor now).1).userId = r.userId ∧
    ((renewStep r actor now).1).bookId = r.bookId ∧
    ((renewStep r actor now).1).status =
      (if r.status = .Borrowed ∧ r.dueDate + 14 * msPerDay < now
       then LoanStatus.Overdue else r.status) ∧
    (r.status = .Overdue → ((renewStep r actor now).1).status = .Overdue) := by
  have hc : renewBookCtrl r actor now = .ok
      (({ r with dueDate := r.dueDate + 14 * msPerDay,
                 renewalCount := r.renewalCount + 1 } : BorrowRecord).preSave now) := by
    unfold renewBookCtrl BorrowRecord.renewBook
    rw [if_neg (not_not_intro hown), if_neg (not_not_intro hst), if_neg (by omega)]
  have hstep : renewStep r actor now =
      (({ r with dueDate := r.dueDate + 14 * msPerDay,
                 renewalCount := r.renewalCount + 1 } : BorrowRecord).preSave now, none) := by
    unfold renewStep
    rw [hc]
  have hfields := preSave_fields
    ({ r with dueDate := r.dueDate + 14 * msPerDay,
              renewalCount := r.renewalCount + 1 } : BorrowRecord) now
  have hcount := preSave_renewalCount
    ({ r with dueDate := r.dueDate + 14 * msPerDay,
              renewalCount := r.renewalCount + 1 } : BorrowRecord) now
  have hstatus : ((renewStep r actor now).1).status =
      (if r.status = .Borrowed ∧ r.dueDate + 14 * msPerDay < now
       then LoanStatus.Overdue else r.status) := by
    rw [hstep]
    rw [preSave_status]
    rcases hst with h | h <;>
      simp [BorrowRecord.isOverdue, h, Int.lt_iff_add_one_le]
  refine ⟨by rw [hstep], ?_, ?_, ?_, ?_, ?_, ?_, ?_, hstatus, ?_⟩
  · rw [hstep]; exact hfields.1
  · rw [hstep]; exact hcount
  · rw [hstep]; exact hfields.2.1
  · rw [hstep]; exact hfields.2.2.1
  · rw [hstep]; exact hfields.2.2.2.1
  · rw [hstep]; exact hfields.2.2.2.2.1
  · rw [hstep]; exact hfields.2.2.2.2.2
  · intro h
    rw [hstatus, if_neg (by simp [h])]
    exact h

theorem claim6_witness :
    (renewStep exLoan 1 (50 * msPerDay)).2 = none ∧
    ((renewStep exLoan 1 (50 * msPerDay)).1).dueDate =
      exLoan.dueDate + 14 * msPerDay ∧
    ((renewStep exLoan 1 (50 * msPerDay)).1).renewalCount =
      exLoan.renewalCount + 1 ∧
    ((renewStep exLoan 1 (50 * msPerDay)).1).fine = exLoan.fine ∧
    ((renewStep exLoan 1 (50 * msPerDay)).1).returnDate = exLoan.returnDate ∧
    ((renewStep exLoan 1 (50 * msPerDay)).1).borrowDate = exLoan.borrowDate ∧
    ((renewStep exLoan 1 (50 * msPerDay)).1).userId = exLoan.userId ∧
    ((renewStep exLoan 1 (50 * msPerDay)).1).bookId = exLoan.bookId ∧
    ((renewStep exLoan 1 (50 * msPerDay)).1).status =
      (if exLoan.status = .Borrowed ∧ exLoan.dueDate + 14 * msPerDay < 50 * msPerDay
       then LoanStatus.Overdue else exLoan.status) ∧
    (exLoan.status = .Overdue →
      ((renewStep exLoan 1 (50 * msPerDay)).1).status = .Overdue) :=
  claim6_renew_success exLoan 1 (50 * msPerDay) (by decide) (by decide) (by decide)

/-- C7 counterexample: a Lost loan does not block re-borrowing.  User 1 holds
an unreturned Lost record for book 2, yet borrowing book 2 again succeeds —
the duplicate check only queries for status Borrowed or Overdue, so the
claim's 'any of the statuses Borrowed, Overdue, or Lost' is refuted at this
input. -/
theorem claim7_counterexample :
    exLostLoan.returnDate = none ∧
    exLostLoan.status = LoanStatus.Lost ∧
    exLostLoan.userId = 1 ∧ exLostLoan.bookId = 2 ∧
    (borrowBook [exLostLoan] exBook 1 2 none (50 * msPerDay)).isOk = true ∧
    borrowBook [exLostLoan] exBook 1 2 none (50 * msPerDay) ≠
      .error BorrowError.DuplicateLoan := by
  have h : borrowBook [exLostLoan] exBook 1 2 none (50 * msPerDay) =
      .ok ({ userId := 1, bookId := 2, borrowDate := 50 * msPerDay,
             dueDate := 64 * msPerDay, returnDate := none,
             status := .Borrowed, renewalCount := 0,
             fine := { amount := 0, paid := false, paidDate := none } },
           { totalCopies := 3, availableCopies := 0, borrowCount := 8,
             isActive := true }) := by
    rfl
  refine ⟨rfl, rfl, rfl, rfl, by rw [h]; rfl, ?_⟩
  rw [h]
  exact fun hx => Except.noConfusion hx

/-- C7 as amended: when the user holds a loan with status Borrowed or Overdue
for an active, available book, borrowing it again fails with the duplicate
error (a Lost record does not block); and whenever a borrow succeeds, no
Borrowed/Overdue record of that user for that book existed, so a (user, book)
pair keeps at most one record with status in {Borrowed, Overdue}. -/
theorem claim7_duplicate_loan (records : List BorrowRecord) (book : Book)
    (u bk : Nat) (dueDate? : Option Int) (now : Int)
    (hact : book.isActive = true)
    (havail : book.availableCopies > 0)
    (hdup : records.filter
      (fun r => r.userId = u ∧ r.bookId = bk ∧ r.isActiveLoan) ≠ []) :
    borrowBook records book u bk dueDate? now =
      .error BorrowError.DuplicateLoan ∧
    ∀ (recs : List BorrowRecord) (b2 : Book) (u2 b2k : Nat) (d2 : Option Int)
      (t2 : Int) (out : BorrowRecord × Book),
      borrowBook recs b2 u2 b2k d2 t2 = .ok out →
      recs.filter (fun r => r.userId = u2 ∧ r.bookId = b2k ∧ r.isActiveLoan) = [] := by
  constructor
  · have hav : book.isAvailable = true := by
      simp [Book.isAvailable, hact, havail]
    unfold borrowBook
    rw [if_neg (not_not_intro hact), if_neg (not_not_intro hav), if_pos hdup]
  · intro recs b2 u2 b2k d2 t2 out hok
    unfold borrowBook at hok
    by_cases h1 : ¬ b2.isActive = true
    · rw [if_pos h1] at hok
      exact Except.noConfusion hok
    rw [if_neg h1] at hok
    by_cases h2 : ¬ b2.isAvailable = true
    · rw [if_pos h2] at hok
      exact Except.noConfusion hok
    rw [if_neg h2] at hok
    by_cases h3 : recs.filter
        (fun r => r.userId = u2 ∧ r.bookId = b2k ∧ r.isActiveLoan) ≠ []
    · rw [if_pos h3] at hok
      exact Except.noConfusion hok
    · exact not_not.mp h3

theorem claim7_witness :
    borrowBook [exLoan] exBook 1 2 none 0 = .error BorrowError.DuplicateLoan :=
  (claim7_duplicate_loan [exLoan] exBook 1 2 none 0
    (by decide) (by decide) (by decide)).1

theorem isOverdue_of_future_due (r : BorrowRecord) (now : Int)
    (h : now ≤ r.dueDate) : r.isOverdue now = false := by
  unfold BorrowRecord.isOverdue
  split
  · rfl
  · simp only [decide_eq_false_iff_not]
    omega

theorem preSave_of_future_due (r : BorrowRecord) (now : Int)
    (h : now ≤ r.dueDate) : r.preSave now = r := by
  unfold BorrowRecord.preSave
  rw [isOverdue_of_future_due r now h]
  simp

/-- C8: borrowing an active book with a copy available, as a user with no
active loan for it and fewer than five active loans, succeeds: the created
record has status Borrowed, dueDate the supplied future date (now + 14 days
when none is supplied), renewalCount 0 and a zero unpaid fine, while the book
loses one available copy and gains one lifetime borrow (totalCopies kept). -/
theorem claim8_borrow_success (records : List BorrowRecord) (book : Book)
    (u bk : Nat) (dueDate? : Option Int) (now : Int)
    (hact : book.isActive = true)
    (havail : book.availableCopies > 0)
    (hdup : records.filter
      (fun r => r.userId = u ∧ r.bookId = bk ∧ r.isActiveLoan) = [])
    (hlim : (records.filter (fun r => r.userId = u ∧ r.isActiveLoan)).length < 5)
    (hfut : ∀ d, dueDate? = some d → now < d) :
    borrowBook records book u bk dueDate? now =
      .ok ({ userId := u, bookId := bk, borrowDate := now,
             dueDate := dueDate?.getD (now + 14 * msPerDay), returnDate := none,
             status := .Borrowed, renewalCount := 0,
             fine := { amount := 0, paid := false, paidDate := none } },
           { book with availableCopies := book.availableCopies - 1,
                       borrowCount := book.borrowCount + 1 }) := by
  have hav : book.isAvailable = true := by
    simp [Book.isAvailable, hact, havail]
  have hd : now < dueDate?.getD (now + 14 * msPerDay) := by
    cases dueDate? with
    | none =>
        have h14 : (14 : Int) * msPerDay = 1209600000 := by decide
        simp only [Option.getD]
        omega
    | some d => exact hfut d rfl
  have hbc : (book.borrowCopy).1 =
      { book with availableCopies := book.availableCopies - 1,
                  borrowCount := book.borrowCount + 1 } := by
    unfold Book.borrowCopy
    rw [if_pos havail]
  unfold borrowBook
  rw [if_neg (not_not_intro hact), if_neg (not_not_intro hav),
    if_neg (not_not_intro hdup), if_neg (by omega)]
  simp only [gt_iff_lt]
  split
  · next hcond => exact absurd hd (by simpa using hcond)
  · next hcond =>
      rw [preSave_of_future_due _ _ (le_of_lt hd), hbc]

theorem claim8_witness :
    borrowBook [] exBook 1 2 none 0 =
      .ok ({ userId := 1, bookId := 2, borrowDate := 0,
             dueDate := (none : Option Int).getD (0 + 14 * msPerDay),
             returnDate := none, status := .Borrowed, renewalCount := 0,
             fine := { amount := 0, paid := false, paidDate := none } },
           { exBook with availableCopies := exBook.availableCopies - 1,
                         borrowCount := exBook.borrowCount + 1 }) :=
  claim8_borrow_success [] exBook 1 2 none 0
    (by decide) (by decide) (by decide) (by decide) (by intro d h; cases h)

/-- C9: a record is in the overdue query result exactly when it is stored and
either carries the persisted Overdue status or satisfies the derived
condition (status Borrowed with dueDate < now); terminal Returned or Lost
records never appear. -/
theorem claim9_overdue_query (records : List BorrowRecord) (now : Int)
    (r : BorrowRecord) :
    (r ∈ getOverdueBooks records now ↔
      r ∈ records ∧
        (r.status = .Overdue ∨ (r.status = .Borrowed ∧ r.dueDate < now))) ∧
    (r ∈ getOverdueBooks records now →
      r.status ≠ .Returned ∧ r.status ≠ .Lost) := by
  have hmem : r ∈ getOverdueBooks records now ↔
      r ∈ records ∧
        (r.status = .Overdue ∨ (r.status = .Borrowed ∧ r.dueDate < now)) := by
    unfold getOverdueBooks overdueFilter
    rw [List.mem_filter]
    simp
  refine ⟨hmem, fun h => ?_⟩
  rcases (hmem.mp h).2 with h1 | h1
  · simp [h1]
  · simp [h1.1]

theorem claim9_witness :
    exStaleLoan ∈ getOverdueBooks [exLoan, exStaleLoan, exLostLoan]
      (100 * msPerDay) :=
  ((claim9_overdue_query [exLoan, exStaleLoan, exLostLoan] (100 * msPerDay)
    exStaleLoan).1).mpr (by decide)

/-- C10: the fine computation is a pure function of the loan document and the
fixed evaluation instant: two evaluations at equal inputs produce equal
amounts, the amount coincides with `calculateFine`, and the evaluation hands
the document back untouched. -/
theorem claim10_fine_pure (r1 r2 : BorrowRecord) (t1 t2 : Int)
    (hr : r1 = r2) (ht : t1 = t2) :
    (calculateFineEval r1 t1).1 = (calculateFineEval r2 t2).1 ∧
    (calculateFineEval r1 t1).2 = r1 ∧
    (calculateFineEval r1 t1).1 = r1.calculateFine t1 := by
  subst hr
  subst ht
  exact ⟨rfl, rfl, rfl⟩

theorem claim10_witness :
    (calculateFineEval exStaleLoan (100 * msPerDay)).1 =
      (calculateFineEval exStaleLoan (100 * msPerDay)).1 ∧
    (calculateFineEval exStaleLoan (100 * msPerDay)).2 = exStaleLoan ∧
    (calculateFineEval exStaleLoan (100 * msPerDay)).1 =
      exStaleLoan.calculateFine (100 * msPerDay) :=
  claim10_fine_pure exStaleLoan exStaleLoan (100 * msPerDay) (100 * msPerDay)
    rfl rfl

end Nalanda
